import Mathlib

set_option linter.unusedVariables false

/-!
Shallow embedding of
`src/components/views/settings/notifications/RoomOverridesSection.tsx`
from roeltm/matrix-react-sdk.

The file renders a settings section listing rooms whose notification
behaviour overrides the global defaults.  We embed the data model, the
pure rendering logic of the two components (`RoomOverrideTile` and
`RoomOverridesSection`) and the event handlers as Lean functions, and
prove the observable-contract properties about them.

External pieces of the repository that are not part of the source file
(the `NotificationSetting` enum, the localization lookup `_t`, the
`NotificationSettingStore` interface, the `closeMenu` callback of the
`useContextMenu` hook) are modelled from the specification; the helper
`roundRoomNotificationSetting` is kept as an abstract parameter of the
rendering environment, since neither its code nor a behavioural
description of it is available here.
-/

namespace RoomOverrides

/-- Modelled from the spec: `NotificationSetting` is an enumerated level
owned and defined externally in `notifications/types`, namely
AllMessages, DirectMessagesMentionsKeywords, MentionsKeywordsOnly and
Never. -/
inductive NotificationSetting
  | AllMessages
  | DirectMessagesMentionsKeywords
  | MentionsKeywordsOnly
  | Never
deriving DecidableEq, Repr

/-- A runtime value of the TypeScript `NotificationSetting` type: one of
the enum members, or an unexpected value that slipped past the type
system (TypeScript enums are not sealed at runtime).  The `switch` in
`mapNotificationLevelToString` has a `default` branch for these. -/
inductive NotificationSettingValue
  | member : NotificationSetting → NotificationSettingValue
  | unexpected : String → NotificationSettingValue
deriving DecidableEq, Repr

/-- Modelled from the spec: the localization lookup `_t` from
`languageHandler` is external; we model it as the identity on the
source-language strings. -/
def translate (s : String) : String := s

/-- `mapNotificationLevelToString` (source lines 46..57): a `switch` on
the level with cases for AllMessages, DirectMessagesMentionsKeywords,
MentionsKeywordsOnly, and a shared `case Never: default:` branch. -/
def mapNotificationLevelToString : NotificationSettingValue → String
  | .member .AllMessages => translate "All Messages"
  | .member .DirectMessagesMentionsKeywords => translate "Mentions & Keywords"
  | .member .MentionsKeywordsOnly => translate "Mentions & Keywords"
  | _ => translate "None"

/-- The slice of a `matrix-js-sdk` room the component reads: only its
display name (`room.name`). -/
structure Room where
  name : String
deriving DecidableEq, Repr

/-- The slice of the `MatrixClient` the component reads: room lookup by
id, which returns `null` (here `none`) when the client has no such
room. -/
structure MatrixClient where
  getRoom : String → Option Room

/-- Modelled from the spec: the `NotificationSettingStore` singleton is
external; per the spec it holds, per room, an optionally-unset notify
level override and an optionally-unset sound level override, and a list
of overridden rooms queryable via `getOverridenRooms` (spelling as in
the source). -/
structure NotificationSettingStore where
  roomNotifyOverride : String → Option NotificationSetting
  roomSoundOverride : String → Option NotificationSetting
  overriddenRooms : List String

def NotificationSettingStore.getRoomNotifyOverride
    (store : NotificationSettingStore) (roomId : String) :
    Option NotificationSetting :=
  store.roomNotifyOverride roomId

def NotificationSettingStore.getRoomSoundOverride
    (store : NotificationSettingStore) (roomId : String) :
    Option NotificationSetting :=
  store.roomSoundOverride roomId

def NotificationSettingStore.getOverridenRooms
    (store : NotificationSettingStore) : List String :=
  store.overriddenRooms

/-- Props of the exported section component. -/
structure IProps where
  notifyMeWith : NotificationSetting
  playSoundFor : NotificationSetting
deriving DecidableEq, Repr

/-- Props of the per-room tile. -/
structure IRoomOverrideTileProps where
  notifyMeWith : NotificationSetting
  playSoundFor : NotificationSetting
  roomId : String
deriving DecidableEq, Repr

/-- JavaScript `a || b` on an optional enum value: enum members are
non-empty strings at runtime, hence truthy, so the expression yields the
override when it is set and the default otherwise (null coalescing). -/
def jsOr (o : Option NotificationSetting) (d : NotificationSetting) :
    NotificationSetting :=
  match o with
  | some v => v
  | none => d

/-- The rendering environment of a tile: the client from
`MatrixClientContext` and the external helper
`roundRoomNotificationSetting` (imported from `notifications/types`,
not defined in this file; kept abstract). -/
structure TileEnv where
  cli : MatrixClient
  roundRoomNotificationSetting : String → NotificationSetting → NotificationSetting

/-- One rendered `MenuItem` of the tile popup menu: its CSS class, its
`aria-selected` flag, its label text, and whether the `(default)` tag is
rendered after the label. -/
structure RenderedMenuItem where
  className : String
  ariaSelected : Bool
  label : String
  hasDefaultTag : Bool
deriving DecidableEq, Repr

/-- The rendered `ContextMenu` of the tile: its three menu items in
order. -/
structure RenderedContextMenu where
  items : List RenderedMenuItem
deriving DecidableEq, Repr

/-- The rendered output of `RoomOverrideTile`: the avatar room, the
displayed room name, the label on the context-menu button, the
`isExpanded` flag of that button, and the context menu when
displayed. -/
structure RenderedTile where
  avatarRoom : Room
  displayName : String
  buttonLabel : String
  menuExpanded : Bool
  contextMenu : Option RenderedContextMenu
deriving DecidableEq, Repr

/-- `notifyLevel` as computed on source line 81:
`notifyLevelOverride || roundedNotifyMeWith`. -/
def RoomOverrideTile.notifyLevel (env : TileEnv)
    (props : IRoomOverrideTileProps)
    (notifyLevelOverride : Option NotificationSetting) :
    NotificationSetting :=
  jsOr notifyLevelOverride
    (env.roundRoomNotificationSetting props.roomId props.notifyMeWith)

/-- `soundLevel` as computed on source line 82:
`soundLevelOverride || roundedPlaySoundFor`.  The source computes this
value but never uses it in the rendered output. -/
def RoomOverrideTile.soundLevel (env : TileEnv)
    (props : IRoomOverrideTileProps)
    (soundLevelOverride : Option NotificationSetting) :
    NotificationSetting :=
  jsOr soundLevelOverride
    (env.roundRoomNotificationSetting props.roomId props.playSoundFor)

/-- Rendering of `RoomOverrideTile` (source lines 66..137).  Inputs: the
environment, the props, the component state pair
`[notifyLevelOverride, soundLevelOverride]` held by `useState` (seeded
from the store and updated by the per-room change event), and the
`menuDisplayed` flag of `useContextMenu`.  When `cli.getRoom` returns
`null` the render reaches the unguarded `room.name` dereference and
throws; we model the thrown fault as `none`. -/
def RoomOverrideTile (env : TileEnv) (props : IRoomOverrideTileProps)
    (notifyLevelOverride soundLevelOverride : Option NotificationSetting)
    (menuDisplayed : Bool) : Option RenderedTile :=
  match env.cli.getRoom props.roomId with
  | none => none
  | some room =>
    let roundedNotifyMeWith :=
      env.roundRoomNotificationSetting props.roomId props.notifyMeWith
    let notifyLevel :=
      RoomOverrideTile.notifyLevel env props notifyLevelOverride
    let soundLevel :=
      RoomOverrideTile.soundLevel env props soundLevelOverride
    let contextMenu : Option RenderedContextMenu :=
      if menuDisplayed then
        some { items := [
          { className := "mx_NotificationsTab_RoomOverrideTile_ContextMenu_allMessages"
            ariaSelected := notifyLevel == NotificationSetting.AllMessages
            label := mapNotificationLevelToString (.member .AllMessages)
            hasDefaultTag := roundedNotifyMeWith == NotificationSetting.AllMessages },
          { className := "mx_NotificationsTab_RoomOverrideTile_ContextMenu_mentionsKeywords"
            ariaSelected := notifyLevel == NotificationSetting.MentionsKeywordsOnly
            label := mapNotificationLevelToString (.member .MentionsKeywordsOnly)
            hasDefaultTag := roundedNotifyMeWith == NotificationSetting.MentionsKeywordsOnly },
          { className := "mx_NotificationsTab_RoomOverrideTile_ContextMenu_none"
            ariaSelected := notifyLevel == NotificationSetting.Never
            label := mapNotificationLevelToString (.member .Never)
            hasDefaultTag := roundedNotifyMeWith == NotificationSetting.Never } ] }
      else none
    some
      { avatarRoom := room
        displayName := if room.name == "" then props.roomId else room.name
        buttonLabel := mapNotificationLevelToString (.member notifyLevel)
        menuExpanded := menuDisplayed
        contextMenu := contextMenu }

/-- The rendered description `div` of the section: CSS class and
text. -/
structure RenderedDescription where
  className : String
  text : String
deriving DecidableEq, Repr

/-- The warning description rendered when `notifyMeWith` is `Never`
(source lines 167..170). -/
def warningDescription : RenderedDescription :=
  { className := "mx_SettingsTab_errorText"
    text := translate "Account notifications are set to “Never” and changes below will not apply." }

/-- The ordinary description rendered otherwise (source lines
171..174). -/
def ordinaryDescription : RenderedDescription :=
  { className := "mx_SettingsTab_subsectionText"
    text := translate "Rooms listed below use custom notification settings" }

/-- The rendered output of a non-null `RoomOverridesSection`: the
section title, the description div, the list of `RoomOverrideTile`
elements (as the props each tile is instantiated with, in order), and
the reset button label. -/
structure RenderedSection where
  title : String
  description : RenderedDescription
  tiles : List IRoomOverrideTileProps
  resetButtonLabel : String
deriving DecidableEq, Repr

/-- The room list fetched at mount (source line 161):
`useRef(store.getOverridenRooms()).current` evaluated on the first
render, when the ref is initialized from its argument. -/
def RoomOverridesSection.mountRooms (store : NotificationSettingStore) :
    List String :=
  store.getOverridenRooms

/-- Rendering of `RoomOverridesSection` (source lines 153..182) given
the room list held by the ref.  Returns `null` (`none`) when the list
has fewer than one element; otherwise renders the description (warning
iff `notifyMeWith` is `Never`), one tile per room and the reset
button. -/
def RoomOverridesSection.render (rooms : List String) (props : IProps) :
    Option RenderedSection :=
  if rooms.length < 1 then none
  else
    let description :=
      if props.notifyMeWith == NotificationSetting.Never then
        warningDescription
      else
        ordinaryDescription
    let tiles := rooms.map fun roomId =>
      ({ notifyMeWith := props.notifyMeWith
         playSoundFor := props.playSoundFor
         roomId := roomId } : IRoomOverrideTileProps)
    some { title := translate "Room notifications"
           description := description
           tiles := tiles
           resetButtonLabel := translate "Reset all rooms" }

/-- React `useRef` semantics for the rooms list: on the first render
(ref state `none`) the ref is initialized from its argument, here the
store query; on every later render the stored value is returned and the
argument is ignored. -/
def useRefRooms (refState : Option (List String))
    (store : NotificationSettingStore) :
    List String × Option (List String) :=
  match refState with
  | none => (store.getOverridenRooms, some store.getOverridenRooms)
  | some rooms => (rooms, some rooms)

/-- One render of the section component together with its ref cell:
reads the rooms list through `useRef` against the current store state
and renders with it. -/
def RoomOverridesSection.renderWithRef (refState : Option (List String))
    (store : NotificationSettingStore) (props : IProps) :
    Option RenderedSection × Option (List String) :=
  let roomsAndRef := useRefRooms refState store
  (RoomOverridesSection.render roomsAndRef.1 props, roomsAndRef.2)

/-- A sequence of renders of one mounted section component: each step
sees the store state and props current at that render and threads the
ref cell to the next render. -/
def renderSequence : Option (List String) →
    List (NotificationSettingStore × IProps) → List (Option RenderedSection)
  | _, [] => []
  | refState, step :: rest =>
    let outAndRef := RoomOverridesSection.renderWithRef refState step.1 step.2
    outAndRef.1 :: renderSequence outAndRef.2 rest

/-- The confirmation dialog request opened by the reset-all handler. -/
structure DialogRequest where
  title : String
  description : String
  button : String
  cancelButton : String
deriving DecidableEq, Repr

/-- The `onFinished` callback passed to the reset-all confirmation
dialog (source lines 144..148): `if (yes) \x7b /* TODO */ \x7d` — both
branches leave the store untouched. -/
def resetAllOnFinished (yes : Bool)
    (store : NotificationSettingStore) : NotificationSettingStore :=
  if yes then
    store
  else
    store

/-- `onResetAllRoomsClick` (source lines 139..151): opens the tracked
question dialog and performs no store mutation of its own. -/
def onResetAllRoomsClick (store : NotificationSettingStore) :
    NotificationSettingStore × DialogRequest :=
  (store,
   { title := translate "Resetting all rooms"
     description := translate "Are you sure you want to reset all rooms?"
     button := translate "Yes"
     cancelButton := translate "No" })

/-- The local UI state of one tile: the `menuDisplayed` flag of
`useContextMenu` and the override pair held by `useState`. -/
structure TileComponentState where
  menuDisplayed : Bool
  notifyLevelOverride : Option NotificationSetting
  soundLevelOverride : Option NotificationSetting
deriving Repr

/-- The state a tile click handler can touch: the external store and the
local component state. -/
structure TileAppState where
  store : NotificationSettingStore
  ui : TileComponentState

/-- Modelled from the spec: `closeMenu` from the external
`useContextMenu` hook closes the context menu and does nothing else —
per the spec, selecting an item currently only closes the menu. -/
def closeMenu (s : TileAppState) : TileAppState :=
  { s with ui := { s.ui with menuDisplayed := false } }

/-- The `onClick` handler of each of the three menu items (source lines
96, 105, 114) is `closeMenu`. -/
def menuItemOnClick : TileAppState → TileAppState := closeMenu

/-- The default-tag flags of the three rendered menu items, in order,
extracted from a (possibly faulted) tile render. -/
def renderedDefaultTags (r : Option RenderedTile) :
    Option (Option (List Bool)) :=
  r.map fun tile => tile.contextMenu.map fun menu =>
    menu.items.map fun item => item.hasDefaultTag

end RoomOverrides

namespace RoomOverrides

/-- Sample room used by concrete witnesses. -/
def sampleRoom : Room := { name := "Kitchen" }

/-- Sample tile environment used by concrete witnesses: every room id
resolves to `sampleRoom` and rounding is the identity. -/
def sampleEnv : TileEnv :=
  { cli := { getRoom := fun _ => some sampleRoom }
    roundRoomNotificationSetting := fun _ level => level }

/-- Sample tile props used by concrete witnesses. -/
def sampleTileProps : IRoomOverrideTileProps :=
  { notifyMeWith := NotificationSetting.AllMessages
    playSoundFor := NotificationSetting.MentionsKeywordsOnly
    roomId := "!kitchen:example.org" }

/-- A tile environment whose rounding helper returns
`DirectMessagesMentionsKeywords` for every input. -/
def envDMMK : TileEnv :=
  { cli := { getRoom := fun _ => some sampleRoom }
    roundRoomNotificationSetting := fun _ _ =>
      NotificationSetting.DirectMessagesMentionsKeywords }

/-- C1: the effective levels of `RoomOverrideTile` resolve as
`override ?? rounded(default)`: the notify level equals the notify
override when set and otherwise the rounded `notifyMeWith`, the sound
level likewise with the sound override and rounded `playSoundFor`, and
the label on the menu button renders exactly that effective notify
level. -/
theorem roomOverrideTile_effective_levels
    (env : TileEnv) (props : IRoomOverrideTileProps)
    (notifyLevelOverride soundLevelOverride : Option NotificationSetting)
    (menuDisplayed : Bool) (room : Room)
    (h : env.cli.getRoom props.roomId = some room) :
    RoomOverrideTile.notifyLevel env props notifyLevelOverride
      = notifyLevelOverride.getD
          (env.roundRoomNotificationSetting props.roomId props.notifyMeWith)
    ∧ RoomOverrideTile.soundLevel env props soundLevelOverride
      = soundLevelOverride.getD
          (env.roundRoomNotificationSetting props.roomId props.playSoundFor)
    ∧ (RoomOverrideTile env props notifyLevelOverride soundLevelOverride
          menuDisplayed).map RenderedTile.buttonLabel
      = some (mapNotificationLevelToString (.member
          (notifyLevelOverride.getD
            (env.roundRoomNotificationSetting props.roomId
              props.notifyMeWith)))) := by
  refine ⟨?_, ?_, ?_⟩
  · cases notifyLevelOverride <;> rfl
  · cases soundLevelOverride <;> rfl
  · simp only [RoomOverrideTile, h]
    cases notifyLevelOverride <;> rfl

/-- Closed instance of `roomOverrideTile_effective_levels` at a concrete
environment, props and override state. -/
theorem roomOverrideTile_effective_levels_witness :
    sampleEnv.cli.getRoom sampleTileProps.roomId = some sampleRoom
    ∧ (RoomOverrideTile.notifyLevel sampleEnv sampleTileProps
          (some NotificationSetting.Never)
        = (some NotificationSetting.Never).getD
            (sampleEnv.roundRoomNotificationSetting sampleTileProps.roomId
              sampleTileProps.notifyMeWith)
      ∧ RoomOverrideTile.soundLevel sampleEnv sampleTileProps none
        = (none : Option NotificationSetting).getD
            (sampleEnv.roundRoomNotificationSetting sampleTileProps.roomId
              sampleTileProps.playSoundFor)
      ∧ (RoomOverrideTile sampleEnv sampleTileProps
            (some NotificationSetting.Never) none false).map
          RenderedTile.buttonLabel
        = some (mapNotificationLevelToString (.member
            ((some NotificationSetting.Never).getD
              (sampleEnv.roundRoomNotificationSetting sampleTileProps.roomId
                sampleTileProps.notifyMeWith))))) :=
  ⟨rfl, roomOverrideTile_effective_levels sampleEnv sampleTileProps
    (some NotificationSetting.Never) none false sampleRoom rfl⟩

/-- C2 counterexample: when the external rounding helper yields
`DirectMessagesMentionsKeywords` (which is in the domain the claim
quantifies over), none of the three menu items carries the `(default)`
tag, so the tag is not rendered on exactly one item. -/
theorem roomOverrideTile_default_tag_can_vanish :
    envDMMK.roundRoomNotificationSetting sampleTileProps.roomId
        sampleTileProps.notifyMeWith
      = NotificationSetting.DirectMessagesMentionsKeywords
    ∧ renderedDefaultTags
        (RoomOverrideTile envDMMK sampleTileProps none none true)
      = some (some [false, false, false]) := by
  exact ⟨rfl, rfl⟩

/-- C2 amended: the `(default)` tag flags of the three menu items
(AllMessages, MentionsKeywordsOnly, Never, in order) are exactly the
comparisons of each item level with the rounded default, so the tag is
on at most one item — exactly one, namely the matching item, when the
rounded default is not `DirectMessagesMentionsKeywords`, and on no item
when it is. -/
theorem roomOverrideTile_default_tag_matches_rounded_default
    (env : TileEnv) (props : IRoomOverrideTileProps)
    (notifyLevelOverride soundLevelOverride : Option NotificationSetting)
    (room : Room) (h : env.cli.getRoom props.roomId = some room) :
    renderedDefaultTags
        (RoomOverrideTile env props notifyLevelOverride soundLevelOverride
          true)
      = some (some
          [env.roundRoomNotificationSetting props.roomId props.notifyMeWith
              == NotificationSetting.AllMessages,
           env.roundRoomNotificationSetting props.roomId props.notifyMeWith
              == NotificationSetting.MentionsKeywordsOnly,
           env.roundRoomNotificationSetting props.roomId props.notifyMeWith
              == NotificationSetting.Never])
    ∧ (([env.roundRoomNotificationSetting props.roomId props.notifyMeWith
            == NotificationSetting.AllMessages,
         env.roundRoomNotificationSetting props.roomId props.notifyMeWith
            == NotificationSetting.MentionsKeywordsOnly,
         env.roundRoomNotificationSetting props.roomId props.notifyMeWith
            == NotificationSetting.Never].count true = 1)
        ↔ env.roundRoomNotificationSetting props.roomId props.notifyMeWith
            ≠ NotificationSetting.DirectMessagesMentionsKeywords) := by
  constructor
  · simp only [RoomOverrideTile, h]
    rfl
  · cases hr : env.roundRoomNotificationSetting props.roomId
      props.notifyMeWith <;> decide

/-- Closed instance of
`roomOverrideTile_default_tag_matches_rounded_default` at a concrete
environment where the rounded default is `AllMessages`: exactly the
first item is tagged. -/
theorem roomOverrideTile_default_tag_witness :
    sampleEnv.cli.getRoom sampleTileProps.roomId = some sampleRoom
    ∧ renderedDefaultTags
        (RoomOverrideTile sampleEnv sampleTileProps none none true)
      = some (some [true, false, false]) := by
  refine ⟨rfl, ?_⟩
  have h := roomOverrideTile_default_tag_matches_rounded_default
    sampleEnv sampleTileProps none none sampleRoom rfl
  exact h.1.trans (by decide)

/-- C3: the section rendered from the rooms fetched at mount is `null`
exactly when the store list of overridden rooms is empty, and otherwise
contains one `RoomOverrideTile` per room of that list, in order, each
instantiated with the section props and that room id. -/
theorem roomOverridesSection_null_iff_no_overrides
    (store : NotificationSettingStore) (props : IProps) :
    (RoomOverridesSection.render (RoomOverridesSection.mountRooms store)
        props = none
      ↔ store.getOverridenRooms = [])
    ∧ (RoomOverridesSection.render (RoomOverridesSection.mountRooms store)
          props).map RenderedSection.tiles
      = if store.getOverridenRooms.isEmpty then none
        else some (store.getOverridenRooms.map fun roomId =>
          { notifyMeWith := props.notifyMeWith
            playSoundFor := props.playSoundFor
            roomId := roomId }) := by
  cases h : store.overriddenRooms with
  | nil =>
    simp [RoomOverridesSection.render, RoomOverridesSection.mountRooms,
      NotificationSettingStore.getOverridenRooms, h]
  | cons r rs =>
    simp [RoomOverridesSection.render, RoomOverridesSection.mountRooms,
      NotificationSettingStore.getOverridenRooms, h]

/-- C4: whenever the room list is non-empty the section renders, and its
description is the warning text exactly when `notifyMeWith` is `Never`;
otherwise it is the ordinary description text. -/
theorem roomOverridesSection_warning_iff_never
    (rooms : List String) (props : IProps) (h : rooms ≠ []) :
    ∃ out, RoomOverridesSection.render rooms props = some out
      ∧ (out.description = warningDescription
          ↔ props.notifyMeWith = NotificationSetting.Never)
      ∧ (props.notifyMeWith ≠ NotificationSetting.Never
          → out.description = ordinaryDescription) := by
  cases rooms with
  | nil => exact absurd rfl h
  | cons r rs =>
    refine ⟨{ title := translate "Room notifications"
              description :=
                if props.notifyMeWith == NotificationSetting.Never then
                  warningDescription
                else
                  ordinaryDescription
              tiles := (r :: rs).map fun roomId =>
                { notifyMeWith := props.notifyMeWith
                  playSoundFor := props.playSoundFor
                  roomId := roomId }
              resetButtonLabel := translate "Reset all rooms" },
      ?_, ?_, ?_⟩
    · rfl
    · show (if (props.notifyMeWith == NotificationSetting.Never) = true
            then warningDescription else ordinaryDescription)
          = warningDescription
        ↔ props.notifyMeWith = NotificationSetting.Never
      cases props.notifyMeWith <;> decide
    · intro hne
      have hb : (props.notifyMeWith == NotificationSetting.Never) = false := by
        cases hm : props.notifyMeWith <;> first | rfl | exact absurd hm hne
      simp [hb]

/-- Closed instance of `roomOverridesSection_warning_iff_never` at a
concrete non-empty room list with global level `Never`. -/
theorem roomOverridesSection_warning_iff_never_witness :
    (["!a:hs"] ≠ ([] : List String))
    ∧ ∃ out, RoomOverridesSection.render ["!a:hs"]
          { notifyMeWith := NotificationSetting.Never
            playSoundFor := NotificationSetting.Never } = some out
        ∧ (out.description = warningDescription
            ↔ NotificationSetting.Never = NotificationSetting.Never)
        ∧ (NotificationSetting.Never ≠ NotificationSetting.Never
            → out.description = ordinaryDescription) :=
  ⟨by decide,
   roomOverridesSection_warning_iff_never ["!a:hs"]
     { notifyMeWith := NotificationSetting.Never
       playSoundFor := NotificationSetting.Never }
     (by simp)⟩

/-- C5: across any sequence of renders of one mounted section, the store
is read only by the first render: every render, whatever the store state
and props current at that moment, shows the room list the store held at
mount, so the displayed list never shrinks when overrides are cleared
afterwards. -/
theorem roomOverridesSection_rooms_fetched_once
    (store₀ : NotificationSettingStore) (props₀ : IProps)
    (steps : List (NotificationSettingStore × IProps)) :
    renderSequence none ((store₀, props₀) :: steps)
      = RoomOverridesSection.render store₀.getOverridenRooms props₀
        :: steps.map fun step =>
             RoomOverridesSection.render store₀.getOverridenRooms
               step.2 := by
  have aux : ∀ (rs : List String)
      (l : List (NotificationSettingStore × IProps)),
      renderSequence (some rs) l
        = l.map fun step => RoomOverridesSection.render rs step.2 := by
    intro rs l
    induction l with
    | nil => rfl
    | cons a l ih =>
      simp [renderSequence, RoomOverridesSection.renderWithRef,
        useRefRooms, ih]
  simp [renderSequence, RoomOverridesSection.renderWithRef, useRefRooms,
    aux]

/-- C6: the reset-all handler opens the confirmation dialog but leaves
the store untouched, and its `onFinished` callback leaves the store
untouched for every outcome, including confirmation with Yes. -/
theorem resetAllRooms_never_mutates_store
    (store : NotificationSettingStore) (yes : Bool) :
    (onResetAllRoomsClick store).1 = store
    ∧ resetAllOnFinished yes store = store
    ∧ (onResetAllRoomsClick store).2
      = { title := translate "Resetting all rooms"
          description := translate "Are you sure you want to reset all rooms?"
          button := translate "Yes"
          cancelButton := translate "No" } := by
  refine ⟨rfl, ?_, rfl⟩
  cases yes <;> rfl

/-- C7: clicking any menu item runs `closeMenu`, which closes the menu
and changes nothing else: the store and the override state are exactly
as before. -/
theorem menuItemOnClick_only_closes_menu (s : TileAppState) :
    (menuItemOnClick s).store = s.store
    ∧ (menuItemOnClick s).ui.notifyLevelOverride
        = s.ui.notifyLevelOverride
    ∧ (menuItemOnClick s).ui.soundLevelOverride
        = s.ui.soundLevelOverride
    ∧ (menuItemOnClick s).ui.menuDisplayed = false :=
  ⟨rfl, rfl, rfl, rfl⟩

/-- C8: the tile render faults (reaches the unguarded `room.name`
dereference) exactly when the client has no room for the given id;
there is no path that handles the missing room. -/
theorem roomOverrideTile_faults_iff_missing_room
    (env : TileEnv) (props : IRoomOverrideTileProps)
    (notifyLevelOverride soundLevelOverride : Option NotificationSetting)
    (menuDisplayed : Bool) :
    RoomOverrideTile env props notifyLevelOverride soundLevelOverride
        menuDisplayed = none
      ↔ env.cli.getRoom props.roomId = none := by
  cases h : env.cli.getRoom props.roomId <;>
    simp [RoomOverrideTile, h]

/-- C9: `mapNotificationLevelToString` is total — every input, enum
member or unexpected runtime value, yields one of the three labels — and
non-injective: `DirectMessagesMentionsKeywords` and
`MentionsKeywordsOnly` share the label, `Never` and every unexpected
value fall to the default branch label, and `AllMessages` gets its own
label. -/
theorem mapNotificationLevelToString_total_non_injective :
    (∀ v, mapNotificationLevelToString v = translate "All Messages"
        ∨ mapNotificationLevelToString v = translate "Mentions & Keywords"
        ∨ mapNotificationLevelToString v = translate "None")
    ∧ mapNotificationLevelToString
        (.member .DirectMessagesMentionsKeywords)
      = mapNotificationLevelToString (.member .MentionsKeywordsOnly)
    ∧ (∀ s, mapNotificationLevelToString (.unexpected s)
        = translate "None")
    ∧ mapNotificationLevelToString (.member .Never) = translate "None"
    ∧ mapNotificationLevelToString (.member .AllMessages)
      = translate "All Messages"
    ∧ ¬ Function.Injective mapNotificationLevelToString := by
  refine ⟨?_, rfl, ?_, rfl, rfl, ?_⟩
  · intro v
    rcases v with l | s
    · cases l
      · exact Or.inl rfl
      · exact Or.inr (Or.inl rfl)
      · exact Or.inr (Or.inl rfl)
      · exact Or.inr (Or.inr rfl)
    · exact Or.inr (Or.inr rfl)
  · intro s
    rfl
  · intro hinj
    have h := @hinj (.member .DirectMessagesMentionsKeywords)
      (.member .MentionsKeywordsOnly) rfl
    exact absurd h (by decide)

/-- C10: the rendered tile is independent of `playSoundFor` and of the
sound-level override: with all other inputs fixed, any two values of
each produce identical rendered output, since the computed `soundLevel`
is dead in the render. -/
theorem roomOverrideTile_independent_of_sound
    (cli : MatrixClient)
    (round : String → NotificationSetting → NotificationSetting)
    (notifyMeWith playSoundFor₁ playSoundFor₂ : NotificationSetting)
    (roomId : String)
    (notifyLevelOverride : Option NotificationSetting)
    (soundOverride₁ soundOverride₂ : Option NotificationSetting)
    (menuDisplayed : Bool) :
    RoomOverrideTile ⟨⟨cli.getRoom⟩, round⟩
        { notifyMeWith := notifyMeWith, playSoundFor := playSoundFor₁
          roomId := roomId }
        notifyLevelOverride soundOverride₁ menuDisplayed
      = RoomOverrideTile ⟨⟨cli.getRoom⟩, round⟩
        { notifyMeWith := notifyMeWith, playSoundFor := playSoundFor₂
          roomId := roomId }
        notifyLevelOverride soundOverride₂ menuDisplayed := by
  cases h : cli.getRoom roomId <;>
    simp [RoomOverrideTile, RoomOverrideTile.notifyLevel, h]

end RoomOverrides
